import Mathlib

/-!
Skyimager wizard pages (`pkg/imager/fyne_pages.go`)

A shallow embedding of the wizard pages of Skyimager: the form state held in
`FyneGUI`, the construction of page 2, its `Check` closure together with the
confirmation dialog it may open, the boot parameters that page 3 displays, and
the two release lookups `latestBaseURL` and `listBaseImgs`.

Calls that leave the program (the file system, the network, the toolkit) are
represented by an explicit environment `Env` and by the results handed to the
lookups; everything the program shows or does to the outside world is recorded
in a trace of `Effect`s.
-/

namespace Imager

/-! ## Go standard library pieces used by the pages -/

/-- Go `unicode.IsSpace`, on the code point of a character. -/
def isSpace (c : Char) : Bool :=
  let n := c.toNat
  n == 9 || n == 10 || n == 11 || n == 12 || n == 13 || n == 32 ||
  n == 0x85 || n == 0xA0 || n == 0x1680 || (0x2000 ≤ n && n ≤ 0x200A) ||
  n == 0x2028 || n == 0x2029 || n == 0x202F || n == 0x205F || n == 0x3000

/-- Go `strings.TrimSpace`: drop leading and trailing white space. -/
def TrimSpace (s : String) : String :=
  String.mk ((s.data.dropWhile isSpace).reverse.dropWhile isSpace).reverse

/-- The two causes carried by a `*strconv.NumError`. -/
inductive NumError where
  | errSyntax
  | errRange
  deriving DecidableEq

/-- Value of a decimal digit, `none` for any other character. -/
def digitVal (c : Char) : Option Nat :=
  if 48 ≤ c.toNat ∧ c.toNat ≤ 57 then some (c.toNat - 48) else none

/-- Largest value of a `uint64`. -/
def maxUint64 : Nat := 2 ^ 64 - 1

/-- The `cutoff` of `strconv.ParseUint` in base 10: the smallest `n` for which
`n * 10` overflows a `uint64`. -/
def uintCutoff : Nat := maxUint64 / 10 + 1

/-- Largest value of Go's `int` on a 64-bit platform. -/
def maxInt : Int := 2 ^ 63 - 1

/-- Smallest value of Go's `int` on a 64-bit platform. -/
def minInt : Int := -(2 ^ 63)

/-- The loop of `strconv.ParseUint` in base 10 with 64 bits, `n` being the
value read so far. Each character is tested in turn: a non-digit stops with a
syntax error and `0`; a digit that would overflow stops with a range error and
the largest `uint64`, whatever follows. -/
def parseUintLoop : List Char → Nat → Nat × Option NumError
  | [], n => (n, none)
  | c :: cs, n =>
    match digitVal c with
    | none => (0, some .errSyntax)
    | some d =>
      if n ≥ uintCutoff then (maxUint64, some .errRange)
      else if n * 10 + d > maxUint64 then (maxUint64, some .errRange)
      else parseUintLoop cs (n * 10 + d)

/-- Go `strconv.ParseUint(s, 10, 0)`: the empty text is a syntax error. -/
def ParseUint (cs : List Char) : Nat × Option NumError :=
  match cs with
  | [] => (0, some .errSyntax)
  | _ => parseUintLoop cs 0

/-- Go `strconv.ParseInt(s, 10, 0)`: pick off a leading sign, read the
magnitude, give `0` on a syntax error and the nearest bound with a range error
when the magnitude does not fit. -/
def ParseInt (cs : List Char) : Int × Option NumError :=
  match cs with
  | [] => (0, some .errSyntax)
  | c :: rest =>
    let neg : Bool := c = '-'
    let body := if c = '+' ∨ c = '-' then rest else c :: rest
    let un := ParseUint body
    if un.2 = some .errSyntax then (0, some .errSyntax)
    else if neg = false ∧ un.1 ≥ 2 ^ 63 then (maxInt, some .errRange)
    else if neg = true ∧ un.1 > 2 ^ 63 then (minInt, some .errRange)
    else if neg then (-(un.1 : Int), none)
    else ((un.1 : Int), none)

/-- Go `strconv.Atoi` (64-bit `int`): the value and the error, those of
`ParseInt(s, 10, 0)`. A syntax error gives `0`, a range error the nearest
bound. -/
def Atoi (s : String) : Int × Option NumError :=
  ParseInt s.data

/-- Go `strconv.Itoa`. -/
def Itoa (n : Int) : String := toString n

/-! ## Data model -/

/-- A Go `net.IP`: a byte slice. The nil slice is `none` in `Option IP`. -/
abbrev IP := List Nat

/-- Modelled from the spec: the `Release` type is not part of the source file;
a release has a version tag, a published timestamp and its asset URLs. -/
structure Release where
  tag : String
  published : Nat
  assets : List String
  deriving DecidableEq

/-- The fields of `FyneGUI` that the pages read and write. -/
structure FyneGUI where
  wkDir : String
  baseImg : String
  gwIP : Option IP
  socksPC : String
  visors : Int
  hv : Bool
  releases : List Release
  deriving DecidableEq

/-- What the pages need from outside the program. An error value is its
message; `none` stands for Go's `err == nil`. -/
structure Env where
  /-- Go `filepath.Abs`. -/
  filepathAbs : String → Except String String
  /-- Go `os.Stat`, error part. -/
  osStat : String → Option String
  /-- Go `os.RemoveAll`. -/
  osRemoveAll : String → Option String
  /-- Go `net.ParseIP`: nil when the text is not an IP address. -/
  netParseIP : String → Option IP
  /-- Go `net.IP.String`. -/
  ipString : Option IP → String
  /-- Helper `releaseStrings` of the package. -/
  releaseStrings : List Release → List String
  /-- Method `Release.String`. -/
  releaseString : Release → String

/-- Everything a page does that is visible outside of `FyneGUI`. -/
inductive Effect where
  | progressShow (title msg : String)
  | progressHide
  | showError (err : String)
  | showConfirm (title msg : String)
  | showInformation (title msg : String)
  | stat (path : String)
  | removeAll (path : String)
  | setContent (page : Nat)
  | debugf (msg : String)
  deriving DecidableEq

/-- Result of `ListReleases`: the releases and the latest one, or an error. -/
abbrev ListResult := Except String (List Release × Release)

/-- Result of `LatestBaseImgURL`: the URL, or an error. -/
abbrev LatestResult := Except String String

/-- The errors `Check` of page 2 can return, in the order of its tests. -/
inductive CheckErr where
  /-- `invalid Work Directory: %v` -/
  | invalidWorkDir (cause : String)
  /-- `invalid Base Image URL: cannot be empty` -/
  | emptyBaseImg
  /-- `invalid Gateway IP` -/
  | invalidGwIP
  /-- `invalid Number of Visor Images: %v` -/
  | invalidVisorText (cause : NumError)
  /-- `cannot create %d Visor Images` -/
  | negativeVisors (n : Int)
  deriving DecidableEq

/-! ## Release lookups -/

/-- A value returned together with the new `FyneGUI` and the effects emitted. -/
structure Ran (α : Type) where
  fg : FyneGUI
  value : α
  trace : List Effect

/-- `FyneGUI.latestBaseURL`, given what `LatestBaseImgURL` answered. -/
def latestBaseURL (lookup : LatestResult) (fg : FyneGUI) : Ran String :=
  let shown := [Effect.progressShow "Please Wait" "Obtaining latest base image URL from GitHub...",
                Effect.progressHide]
  match lookup with
  | .error err => { fg := fg, value := "", trace := shown ++ [.showError err] }
  | .ok imgURL => { fg := { fg with baseImg := imgURL }, value := imgURL, trace := shown }

/-- `FyneGUI.listBaseImgs`, given what `ListReleases` answered. -/
def listBaseImgs (E : Env) (lookup : ListResult) (fg : FyneGUI) : Ran (List String × String) :=
  let shown := [Effect.progressShow "Please Wait" "Obtaining base image releases from GitHub...",
                Effect.progressHide]
  match lookup with
  | .error err => { fg := fg, value := ([], ""), trace := shown ++ [.showError err] }
  | .ok (rs, lr) =>
    { fg := { fg with releases := rs },
      value := (E.releaseStrings rs, E.releaseString lr),
      trace := shown }

/-! ## Page 2 -/

/-- The widgets of page 2: the text of each entry, the options and selection
of the base image select, the state of the hypervisor check box. -/
structure Page2Form where
  wkDir : String
  baseImgOptions : List String
  baseImgSelected : String
  gwIP : String
  socksPC : String
  visors : String
  hv : Bool
  deriving DecidableEq

/-- Callback of the base image select. -/
def baseImgOnChanged (fg : FyneGUI) (s : String) : FyneGUI × List Effect :=
  ({ fg with baseImg := s }, [.debugf ("Set: fg.baseImg = " ++ s)])

/-- Callback of the gateway IP entry. -/
def gwIPOnChanged (E : Env) (fg : FyneGUI) (s : String) : FyneGUI × List Effect :=
  ({ fg with gwIP := E.netParseIP s }, [.debugf ("Set: fg.gwIP = " ++ s)])

/-- Callback of the hypervisor check box. -/
def hvOnChanged (fg : FyneGUI) (b : Bool) : FyneGUI × List Effect :=
  ({ fg with hv := b }, [.debugf ("Set: fg.hv = " ++ toString b)])

/-- Callback of the visors entry: the parse error is discarded. -/
def visorsOnChanged (fg : FyneGUI) (s : String) : FyneGUI × List Effect :=
  ({ fg with visors := (Atoi s).1 }, [.debugf ("Set: fg.visors = " ++ s)])

/-- The user types `s` in the visors entry: the entry text and `fg.visors` change. -/
def typeVisors (fg : FyneGUI) (form : Page2Form) (s : String) : FyneGUI × Page2Form :=
  ((visorsOnChanged fg s).1, { form with visors := s })

/-- Toolkit `Select.SetSelected`, on the remaining options: for every option
equal to the text, in turn, the selection is set and the callback of the select
runs. The state carried is the form state, the selection and the effects. -/
def selectSetSelected (text : String) :
    List String → FyneGUI × String × List Effect → FyneGUI × String × List Effect
  | [], acc => acc
  | opt :: rest, acc =>
    if text = opt then
      let changed := baseImgOnChanged acc.1 text
      selectSetSelected text rest (changed.1, text, acc.2.2 ++ changed.2)
    else selectSetSelected text rest acc

/-- Toolkit `Check.SetChecked` on a check box just created (unchecked): nothing
happens when the value is the one it has, otherwise the callback runs. -/
def checkSetChecked (fg : FyneGUI) (checked : Bool) : FyneGUI × List Effect :=
  if checked = false then (fg, []) else hvOnChanged fg checked

/-- `FyneGUI.Page2`: build the page. The releases are listed; the entries start
with the text of the field they edit; the select starts with `fg.baseImg`; the
check box is set to `fg.hv`; and when the selection is empty and there are
options, the select is set to the latest release. -/
def Page2 (E : Env) (lookup : ListResult) (fg : FyneGUI) : Ran Page2Form :=
  let listed := listBaseImgs E lookup fg
  let fg1 := listed.fg
  let baseImgs := listed.value.1
  let latestImg := listed.value.2
  let hvSet := checkSetChecked fg1 fg1.hv
  let fg2 := hvSet.1
  let form : Page2Form :=
    { wkDir := fg1.wkDir, baseImgOptions := baseImgs, baseImgSelected := fg1.baseImg,
      gwIP := E.ipString fg1.gwIP, socksPC := fg1.socksPC,
      visors := Itoa fg1.visors, hv := fg1.hv }
  if form.baseImgSelected = "" ∧ form.baseImgOptions.length > 0 then
    let sel := selectSetSelected latestImg form.baseImgOptions (fg2, form.baseImgSelected, [])
    { fg := sel.1, value := { form with baseImgSelected := sel.2.1 },
      trace := listed.trace ++ hvSet.2 ++ sel.2.2 }
  else
    { fg := fg2, value := form, trace := listed.trace ++ hvSet.2 }

/-- The two tests of `Check` on the number of visor images. -/
def visorChecks (fg : FyneGUI) (visorsText : String) : Option CheckErr :=
  match (Atoi visorsText).2 with
  | some err => some (.invalidVisorText err)
  | none => if fg.visors < 0 then some (.negativeVisors fg.visors) else none

/-- The tests of `Check` that follow the work directory block. -/
def fieldChecks (fg : FyneGUI) (visorsText : String) : Option CheckErr :=
  if TrimSpace fg.baseImg = "" then some .emptyBaseImg
  else if fg.gwIP = none then some .invalidGwIP
  else visorChecks fg visorsText

/-- What one call of `Check` leaves behind: the error returned, the effects
emitted before returning, and the path of the confirm dialog if one was opened. -/
structure Checked where
  result : Option CheckErr
  trace : List Effect
  confirm : Option String

/-- Title of the confirm dialog of `Check`. -/
def cTitle : String := "Work Directory Already Exists"

/-- Message of the confirm dialog of `Check`. -/
def cMsg (wkDir : String) : String :=
  "Directory " ++ wkDir ++ " already exists.\n" ++ "Delete everything and continue?"

/-- The `Check` closure of page 2. `visorsText` is `visors.Text`. -/
def Page2.Check (E : Env) (fg : FyneGUI) (visorsText : String) : Checked :=
  match E.filepathAbs fg.wkDir with
  | .error err => { result := some (.invalidWorkDir err), trace := [], confirm := none }
  | .ok wkDir =>
    match E.osStat wkDir with
    | none =>
      { result := fieldChecks fg visorsText,
        trace := [.stat wkDir, .showConfirm cTitle (cMsg wkDir)],
        confirm := some wkDir }
    | some _ =>
      { result := fieldChecks fg visorsText, trace := [.stat wkDir], confirm := none }

/-- The callback of the confirm dialog opened by `Check`, on the answer `b`.
`lookup` is what `ListReleases` answers if page 2 is built again. -/
def confirmCallback (E : Env) (lookup : ListResult) (fg : FyneGUI) (wkDir : String)
    (b : Bool) : FyneGUI × List Effect :=
  if !b then
    let page := Page2 E lookup fg
    (page.fg, page.trace ++ [.setContent 2])
  else
    match E.osRemoveAll wkDir with
    | some err =>
      let page := Page2 E lookup fg
      (page.fg,
        [.removeAll wkDir, .showError ("failed to clear work directory: " ++ err)]
          ++ page.trace ++ [.setContent 2])
    | none =>
      (fg, [.removeAll wkDir, .showInformation "Information" "Work directory cleared."])

/-- One run of `Check` followed by the user answering `b` to the confirm
dialog, if it was opened. -/
structure CheckRun where
  result : Option CheckErr
  fg : FyneGUI
  trace : List Effect

/-- Run `Check`, then the dialog callback with answer `b` when a dialog is open. -/
def runCheck (E : Env) (lookup : ListResult) (fg : FyneGUI) (visorsText : String)
    (b : Bool) : CheckRun :=
  let c := Page2.Check E fg visorsText
  match c.confirm with
  | none => { result := c.result, fg := fg, trace := c.trace }
  | some wkDir =>
    let cb := confirmCallback E lookup fg wkDir b
    { result := c.result, fg := cb.1, trace := c.trace ++ cb.2 }

/-- Build page 2 and press Next at once: `Check` on the page as built. -/
def checkAfterPage2 (E : Env) (lookup : ListResult) (fg : FyneGUI) : Option CheckErr :=
  let page := Page2 E lookup fg
  (Page2.Check E page.fg page.value.visors).result

/-! ## The boot parameters shown on page 3 -/

/-- Modelled from the spec: the build configuration is not a type of the source
file; it holds the work directory, the base image, the gateway IP, the
Skysocks passcode, the visor count and the hypervisor flag. -/
structure BuildConfig where
  wkDir : String
  baseImg : String
  gwIP : Option IP
  socksPC : String
  visors : Int
  hv : Bool
  deriving DecidableEq

/-- The configuration held in the form state. -/
def FyneGUI.config (fg : FyneGUI) : BuildConfig :=
  { wkDir := fg.wkDir, baseImg := fg.baseImg, gwIP := fg.gwIP, socksPC := fg.socksPC,
    visors := fg.visors, hv := fg.hv }

/-- Modelled from the spec: boot parameters are not a type of the source file;
an entry has an index (`none` for the hypervisor), the shared gateway IP and
passcode, and a derived IP and host name of its own. -/
structure BootParams where
  index : Option Nat
  gwIP : Option IP
  passcode : String
  ip : IP
  hostname : String
  deriving DecidableEq

/-- Modelled from the spec: the spec leaves open how the IP and host name of
an entry derive from its position; these are the two functions it leaves
open. -/
structure BootGen where
  deriveIP : Option IP → Option Nat → IP
  hostname : Option Nat → String

/-- Modelled from the spec: the entry at one position. -/
def bootEntry (G : BootGen) (c : BuildConfig) (index : Option Nat) : BootParams :=
  { index := index, gwIP := c.gwIP, passcode := c.socksPC,
    ip := G.deriveIP c.gwIP index, hostname := G.hostname index }

/-- Modelled from the spec: `Generate` of the boot parameter generator is not
in the source file. It fails when the visor count is negative; otherwise it
gives one entry per visor, in order, and the hypervisor entry last when the
flag is set. -/
def Generate (G : BootGen) (c : BuildConfig) : Except String (List BootParams) :=
  if c.visors < 0 then .error "InvalidConfigError"
  else .ok ((List.range c.visors.toNat).map (fun i => bootEntry G c (some i))
              ++ (if c.hv then [bootEntry G c none] else []))

/-! ## The conditions of `Check`, read off one by one -/

/-- The five conditions that `Check` tests, each with the error it gives, in
the order work directory, base image, gateway IP, visor text, negative count. -/
def checkConditions (E : Env) (fg : FyneGUI) (visorsText : String) : List (Option CheckErr) :=
  [ (match E.filepathAbs fg.wkDir with
     | .error err => some (.invalidWorkDir err)
     | .ok _ => none),
    (if TrimSpace fg.baseImg = "" then some .emptyBaseImg else none),
    (if fg.gwIP = none then some .invalidGwIP else none),
    (match (Atoi visorsText).2 with
     | some err => some (.invalidVisorText err)
     | none => none),
    (if fg.visors < 0 then some (.negativeVisors fg.visors) else none) ]

/-- The error of the first condition that fails, `none` when all hold. -/
def firstFailure (E : Env) (fg : FyneGUI) (visorsText : String) : Option CheckErr :=
  (checkConditions E fg visorsText).findSome? id

/-- Whether an effect is an error dialog. -/
def isShowError : Effect → Bool
  | .showError _ => true
  | _ => false

/-- Whether an effect is a call of `os.RemoveAll`. -/
def isRemoveAll : Effect → Bool
  | .removeAll _ => true
  | _ => false

/-! ## Sample values -/

/-- An environment in which absolute paths resolve and relative ones do not
(the current directory is gone), every resolved path exists or not according
to `dirExists`, and clearing a directory fails according to `clearFails`. -/
def sampleEnv (dirExists clearFails : Bool) : Env :=
  { filepathAbs := fun p =>
      match p.data with
      | '/' :: _ => .ok p
      | _ => .error "getwd: no such file or directory"
    osStat := fun _ => if dirExists then none else some "no such file or directory"
    osRemoveAll := fun _ => if clearFails then some "permission denied" else none
    netParseIP := fun s => if s = "192.168.0.1" then some [192, 168, 0, 1] else none
    ipString := fun ip => match ip with
      | none => "<nil>"
      | some bs => ".".intercalate (bs.map toString)
    releaseStrings := fun rs => rs.map (fun r => r.tag)
    releaseString := fun r => r.tag }

/-- A form state that passes every test of `Check`. -/
def sampleGUI : FyneGUI :=
  { wkDir := "/tmp/skyimager", baseImg := "https://example.org/skybian.tar.xz",
    gwIP := some [192, 168, 0, 1], socksPC := "", visors := 1, hv := true, releases := [] }

/-- The widgets of page 2 built for `sampleGUI` when the listing times out. -/
def sampleForm : Page2Form :=
  (Page2 (sampleEnv false false) (.error "timeout") sampleGUI).value

/-- A release. -/
def sampleRelease : Release :=
  { tag := "v0.1.0", published := 1, assets := ["https://example.org/skybian.tar.xz"] }

/-- A boot parameter generator. -/
def sampleGen : BootGen :=
  { deriveIP := fun gw index => (gw.getD []) ++ [index.getD 0]
    hostname := fun index => match index with
      | none => "hypervisor"
      | some i => "visor" ++ toString i }

/-! ## Lemmas on `Check` -/

/-- The result of `Check` when the work directory resolves: the field tests,
whatever `os.Stat` says. -/
theorem check_result_of_abs_ok (E : Env) (fg : FyneGUI) (visorsText wkDir : String)
    (h : E.filepathAbs fg.wkDir = .ok wkDir) :
    (Page2.Check E fg visorsText).result = fieldChecks fg visorsText := by
  unfold Page2.Check
  rw [h]
  cases hs : E.osStat wkDir <;> simp [hs]

/-- The result of `Check` when the work directory does not resolve. -/
theorem check_result_of_abs_error (E : Env) (fg : FyneGUI) (visorsText err : String)
    (h : E.filepathAbs fg.wkDir = .error err) :
    (Page2.Check E fg visorsText).result = some (.invalidWorkDir err) := by
  unfold Page2.Check
  rw [h]

/-- `Check` returns the error of the first failing condition. -/
theorem check_result_eq_firstFailure (E : Env) (fg : FyneGUI) (visorsText : String) :
    (Page2.Check E fg visorsText).result = firstFailure E fg visorsText := by
  cases h : E.filepathAbs fg.wkDir with
  | error err =>
    rw [check_result_of_abs_error E fg visorsText err h]
    simp [firstFailure, checkConditions, h]
  | ok wkDir =>
    rw [check_result_of_abs_ok E fg visorsText wkDir h]
    simp only [firstFailure, checkConditions, h, fieldChecks, visorChecks, List.findSome?, id]
    by_cases h1 : TrimSpace fg.baseImg = ""
    · simp [h1]
    · by_cases h2 : fg.gwIP = none
      · simp [h1, h2]
      · cases h3 : (Atoi visorsText).2 with
        | some e => simp [h1, h2]
        | none =>
          by_cases h4 : fg.visors < 0
          · simp [h1, h2, h4]
          · simp [h1, h2, h4]

/-- The field tests pass exactly when the four field conditions hold. -/
theorem fieldChecks_eq_none_iff (fg : FyneGUI) (visorsText : String) :
    fieldChecks fg visorsText = none ↔
      TrimSpace fg.baseImg ≠ "" ∧ fg.gwIP ≠ none ∧ (Atoi visorsText).2 = none ∧ 0 ≤ fg.visors := by
  unfold fieldChecks visorChecks
  by_cases h1 : TrimSpace fg.baseImg = ""
  · simp [h1]
  · by_cases h2 : fg.gwIP = none
    · simp [h1, h2]
    · cases h3 : (Atoi visorsText).2 with
      | some e => simp [h1, h2]
      | none =>
        by_cases h4 : fg.visors < 0
        · simp [h1, h2, h4]
        · simp [h1, h2, h4]
          omega

/-- `Check` returns nil exactly when all five conditions hold. -/
theorem check_result_eq_none_iff (E : Env) (fg : FyneGUI) (visorsText : String) :
    (Page2.Check E fg visorsText).result = none ↔
      (∃ wkDir, E.filepathAbs fg.wkDir = .ok wkDir) ∧ TrimSpace fg.baseImg ≠ "" ∧
        fg.gwIP ≠ none ∧ (Atoi visorsText).2 = none ∧ 0 ≤ fg.visors := by
  cases h : E.filepathAbs fg.wkDir with
  | error err =>
    rw [check_result_of_abs_error E fg visorsText err h]
    simp
  | ok wkDir =>
    rw [check_result_of_abs_ok E fg visorsText wkDir h, fieldChecks_eq_none_iff]
    simp

/-- Setting the select adds no `os.RemoveAll` to the effects. -/
theorem selectSetSelected_filter_removeAll (text : String) (options : List String)
    (acc : FyneGUI × String × List Effect) :
    (selectSetSelected text options acc).2.2.filter isRemoveAll = acc.2.2.filter isRemoveAll := by
  induction options generalizing acc with
  | nil => rfl
  | cons opt rest ih =>
    unfold selectSetSelected
    split_ifs
    · rw [ih]
      simp [baseImgOnChanged, isRemoveAll]
    · exact ih acc

/-- Setting the check box emits no `os.RemoveAll` and leaves the form state as it was
when the value set is `fg.hv`. -/
theorem checkSetChecked_self (fg : FyneGUI) :
    (checkSetChecked fg fg.hv).1 = fg ∧ (checkSetChecked fg fg.hv).2.filter isRemoveAll = [] := by
  unfold checkSetChecked hvOnChanged
  split_ifs <;> simp [isRemoveAll]

/-- Building page 2 leaves no `os.RemoveAll` in its trace. -/
theorem page2_trace_filter_removeAll (E : Env) (lookup : ListResult) (fg : FyneGUI) :
    (Page2 E lookup fg).trace.filter isRemoveAll = [] := by
  have hlist : (listBaseImgs E lookup fg).trace.filter isRemoveAll = [] := by
    unfold listBaseImgs
    rcases lookup with err | ⟨rs, lr⟩ <;> simp [isRemoveAll]
  have hhv := (checkSetChecked_self (listBaseImgs E lookup fg).fg).2
  unfold Page2
  simp only []
  split_ifs
  · simp [List.filter_append, hlist, hhv, selectSetSelected_filter_removeAll]
  · simp [List.filter_append, hlist, hhv]

/-- Building page 2 never calls `os.RemoveAll`. -/
theorem page2_trace_no_removeAll (E : Env) (lookup : ListResult) (fg : FyneGUI) (p : String) :
    Effect.removeAll p ∉ (Page2 E lookup fg).trace := by
  intro h
  have hmem : Effect.removeAll p ∈ (Page2 E lookup fg).trace.filter isRemoveAll :=
    List.mem_filter.mpr ⟨h, rfl⟩
  rw [page2_trace_filter_removeAll] at hmem
  simp at hmem

/-- The result of a run is the result of `Check`. -/
theorem runCheck_result (E : Env) (lookup : ListResult) (fg : FyneGUI) (visorsText : String)
    (b : Bool) : (runCheck E lookup fg visorsText b).result = (Page2.Check E fg visorsText).result := by
  unfold runCheck
  cases hc : (Page2.Check E fg visorsText).confirm <;> simp [hc]

/-- The trace of a run when the work directory does not resolve. -/
theorem runCheck_trace_of_abs_error (E : Env) (lookup : ListResult) (fg : FyneGUI)
    (visorsText : String) (b : Bool) (err : String) (h : E.filepathAbs fg.wkDir = .error err) :
    (runCheck E lookup fg visorsText b).trace = [] := by
  simp [runCheck, Page2.Check, h]

/-- The trace of a run when `os.Stat` fails on the resolved work directory. -/
theorem runCheck_trace_of_stat_error (E : Env) (lookup : ListResult) (fg : FyneGUI)
    (visorsText : String) (b : Bool) (wkDir err : String)
    (h : E.filepathAbs fg.wkDir = .ok wkDir) (hs : E.osStat wkDir = some err) :
    (runCheck E lookup fg visorsText b).trace = [.stat wkDir] := by
  simp [runCheck, Page2.Check, h, hs]

/-- The trace of a run when `os.Stat` finds the resolved work directory. -/
theorem runCheck_trace_of_stat_ok (E : Env) (lookup : ListResult) (fg : FyneGUI)
    (visorsText : String) (b : Bool) (wkDir : String)
    (h : E.filepathAbs fg.wkDir = .ok wkDir) (hs : E.osStat wkDir = none) :
    (runCheck E lookup fg visorsText b).trace =
      [.stat wkDir, .showConfirm cTitle (cMsg wkDir)] ++ (confirmCallback E lookup fg wkDir b).2 := by
  simp [runCheck, Page2.Check, h, hs]

/-- The value `Atoi` gives with an error: `0` with a syntax error, the largest
or the smallest `int` with a range error. -/
theorem Atoi_error_value (s : String) :
    ((Atoi s).2 = some .errSyntax → (Atoi s).1 = 0) ∧
      ((Atoi s).2 = some .errRange → (Atoi s).1 = maxInt ∨ (Atoi s).1 = minInt) := by
  unfold Atoi ParseInt
  cases s.data with
  | nil => simp
  | cons c rest =>
    simp only []
    split_ifs <;> simp

/-! ## Claims -/

/-- C1: `Check` of page 2 rejects every state in which the work directory does
not resolve to an absolute path, or the visor count is negative, or the gateway
IP is nil while the visor count is positive: it returns a non-nil error. -/
theorem check_rejects_invariant_violation (E : Env) (fg : FyneGUI) (visorsText : String)
    (h : (∃ err, E.filepathAbs fg.wkDir = .error err) ∨ fg.visors < 0 ∨
          (fg.gwIP = none ∧ 0 < fg.visors)) :
    (Page2.Check E fg visorsText).result ≠ none := by
  intro hnone
  rw [check_result_eq_none_iff] at hnone
  obtain ⟨⟨wkDir, habs⟩, _, hgw, _, hv⟩ := hnone
  rcases h with ⟨err, herr⟩ | hneg | ⟨hnil, _⟩
  · rw [habs] at herr
    cases herr
  · omega
  · exact hgw hnil

/-- Witness of C1: a relative work directory that cannot be resolved. -/
theorem check_rejects_invariant_violation_witness :
    (Page2.Check (sampleEnv false false) { sampleGUI with wkDir := "work" } "1").result ≠ none :=
  check_rejects_invariant_violation (sampleEnv false false) { sampleGUI with wkDir := "work" } "1"
    (Or.inl ⟨"getwd: no such file or directory", rfl⟩)

/-- C2, as stated, fails: with a resolvable work directory, a non-blank base
image, visor text `0` and visor count 0, `Check` still returns the gateway IP
error when the gateway IP is nil. -/
theorem check_zero_visors_nil_gateway_rejected :
    (Page2.Check (sampleEnv false false) { sampleGUI with gwIP := none, visors := 0 } "0").result
        = some .invalidGwIP ∧
    ¬ (∀ (E : Env) (fg : FyneGUI) (visorsText : String),
        (∃ wkDir, E.filepathAbs fg.wkDir = .ok wkDir) → TrimSpace fg.baseImg ≠ "" →
        (Atoi visorsText).2 = none → fg.visors = 0 →
        (Page2.Check E fg visorsText).result = none) := by
  refine ⟨by decide, ?_⟩
  intro h
  have h0 := h (sampleEnv false false) { sampleGUI with gwIP := none, visors := 0 } "0"
    ⟨"/tmp/skyimager", rfl⟩ (by decide) (by decide) rfl
  revert h0
  decide

/-- C2, amended: with a resolvable work directory, a non-blank base image,
visor text that parses and visor count 0, `Check` returns nil exactly when the
gateway IP is non-nil; with a nil gateway IP it returns the gateway IP error. -/
theorem check_zero_visors_iff_gateway (E : Env) (fg : FyneGUI) (visorsText : String)
    (habs : ∃ wkDir, E.filepathAbs fg.wkDir = .ok wkDir) (himg : TrimSpace fg.baseImg ≠ "")
    (htext : (Atoi visorsText).2 = none) (hzero : fg.visors = 0) :
    ((Page2.Check E fg visorsText).result = none ↔ fg.gwIP ≠ none) ∧
      (fg.gwIP = none → (Page2.Check E fg visorsText).result = some .invalidGwIP) := by
  obtain ⟨wkDir, hwk⟩ := habs
  constructor
  · rw [check_result_eq_none_iff]
    constructor
    · exact fun h => h.2.2.1
    · exact fun h => ⟨⟨wkDir, hwk⟩, himg, h, htext, by omega⟩
  · intro hnil
    rw [check_result_of_abs_ok E fg visorsText wkDir hwk]
    simp [fieldChecks, himg, hnil]

/-- Witness of C2 amended: visor count 0 and a nil gateway IP. -/
theorem check_zero_visors_iff_gateway_witness :
    ((Page2.Check (sampleEnv false false) { sampleGUI with gwIP := none, visors := 0 } "0").result
        = none ↔ ({ sampleGUI with gwIP := none, visors := 0 } : FyneGUI).gwIP ≠ none) ∧
      (({ sampleGUI with gwIP := none, visors := 0 } : FyneGUI).gwIP = none →
        (Page2.Check (sampleEnv false false) { sampleGUI with gwIP := none, visors := 0 } "0").result
          = some .invalidGwIP) :=
  check_zero_visors_iff_gateway (sampleEnv false false)
    { sampleGUI with gwIP := none, visors := 0 } "0" ⟨"/tmp/skyimager", rfl⟩
    (by decide) (by decide) rfl

/-- C8: `Check` returns nil if and only if the work directory resolves, the
trimmed base image is non-empty, the gateway IP is non-nil, the visor text
parses as an integer and the visor count is not negative; in every case the
value returned is the error of the first failing condition, in the order work
directory, base image, gateway IP, visor text, negative count. -/
theorem check_exact_characterisation (E : Env) (fg : FyneGUI) (visorsText : String) :
    ((Page2.Check E fg visorsText).result = none ↔
        (∃ wkDir, E.filepathAbs fg.wkDir = .ok wkDir) ∧ TrimSpace fg.baseImg ≠ "" ∧
          fg.gwIP ≠ none ∧ (Atoi visorsText).2 = none ∧ 0 ≤ fg.visors) ∧
      (Page2.Check E fg visorsText).result = firstFailure E fg visorsText :=
  ⟨check_result_eq_none_iff E fg visorsText, check_result_eq_firstFailure E fg visorsText⟩

/-- C3: in the trace of a run of `Check` with the user answering `b` to the
confirm dialog, `os.RemoveAll` is called on a path exactly when that path is the
resolved work directory, `os.Stat` found it and `b` is true; and it is called
at most once. -/
theorem removeAll_iff_exists_and_confirmed (E : Env) (lookup : ListResult) (fg : FyneGUI)
    (visorsText : String) (b : Bool) (p : String) :
    (Effect.removeAll p ∈ (runCheck E lookup fg visorsText b).trace ↔
        (E.filepathAbs fg.wkDir = .ok p ∧ E.osStat p = none ∧ b = true)) ∧
      ((runCheck E lookup fg visorsText b).trace.filter isRemoveAll).length ≤ 1 := by
  have hpage := page2_trace_no_removeAll E lookup fg p
  have hfilter := page2_trace_filter_removeAll E lookup fg
  cases habs : E.filepathAbs fg.wkDir with
  | error err =>
    rw [runCheck_trace_of_abs_error E lookup fg visorsText b err habs]
    simp
  | ok wkDir =>
    cases hstat : E.osStat wkDir with
    | some e =>
      rw [runCheck_trace_of_stat_error E lookup fg visorsText b wkDir e habs hstat]
      refine ⟨?_, by simp [isRemoveAll]⟩
      simp only [List.mem_singleton, reduceCtorEq, false_iff, not_and]
      intro hp hs
      cases hp
      rw [hstat] at hs
      cases hs
    | none =>
      rw [runCheck_trace_of_stat_ok E lookup fg visorsText b wkDir habs hstat]
      have hiff : wkDir = p ↔ (Except.ok wkDir : Except String String) = .ok p ∧
          E.osStat p = none := by
        constructor
        · intro hp
          subst hp
          exact ⟨rfl, hstat⟩
        · intro hp
          cases hp.1
          rfl
      cases b with
      | false =>
        simp [confirmCallback, hpage, hfilter, isRemoveAll]
      | true =>
        cases hrm : E.osRemoveAll wkDir with
        | some e =>
          refine ⟨?_, by simp [confirmCallback, hrm, hfilter, isRemoveAll]⟩
          simp only [confirmCallback, hrm, and_true, ← hiff]
          simp [hpage, eq_comm]
        | none =>
          refine ⟨?_, by simp [confirmCallback, hrm, isRemoveAll]⟩
          simp only [confirmCallback, hrm, and_true, ← hiff]
          simp [eq_comm]

/-- C4: a failed release lookup is reported and changes nothing. When
`ListReleases` (in `listBaseImgs`) or `LatestBaseImgURL` (in `latestBaseURL`)
fails, exactly one error dialog is shown, with that error, the empty result is
returned and the form state is unchanged; when the lookup succeeds no error
dialog is shown, `fg.releases` resp. `fg.baseImg` is set to the fetched value
and the fetched value is returned. -/
theorem lookup_failure_reported_once (E : Env) (fg : FyneGUI) :
    (∀ err : String,
        (listBaseImgs E (.error err) fg).trace.filter isShowError = [.showError err] ∧
        (listBaseImgs E (.error err) fg).value = ([], "") ∧
        (listBaseImgs E (.error err) fg).fg = fg) ∧
    (∀ (rs : List Release) (lr : Release),
        (listBaseImgs E (.ok (rs, lr)) fg).trace.filter isShowError = [] ∧
        (listBaseImgs E (.ok (rs, lr)) fg).value = (E.releaseStrings rs, E.releaseString lr) ∧
        (listBaseImgs E (.ok (rs, lr)) fg).fg = { fg with releases := rs }) ∧
    (∀ err : String,
        (latestBaseURL (.error err) fg).trace.filter isShowError = [.showError err] ∧
        (latestBaseURL (.error err) fg).value = "" ∧
        (latestBaseURL (.error err) fg).fg = fg) ∧
    (∀ imgURL : String,
        (latestBaseURL (.ok imgURL) fg).trace.filter isShowError = [] ∧
        (latestBaseURL (.ok imgURL) fg).value = imgURL ∧
        (latestBaseURL (.ok imgURL) fg).fg = { fg with baseImg := imgURL }) := by
  refine ⟨fun err => ?_, fun rs lr => ?_, fun err => ?_, fun imgURL => ?_⟩
  · simp [listBaseImgs, isShowError]
  · simp [listBaseImgs, isShowError]
  · simp [latestBaseURL, isShowError]
  · simp [latestBaseURL, isShowError]

/-- C5, as stated, fails: the release listing fails while page 2 is built, yet
`Check` returns nil because `fg.baseImg` was already set. -/
theorem check_passes_after_failed_listing :
    checkAfterPage2 (sampleEnv false false) (.error "timeout") sampleGUI = none ∧
    ¬ (∀ (E : Env) (lookup : ListResult) (fg : FyneGUI),
        ((∃ err, lookup = .error err) ∨ (∃ lr, lookup = .ok ([], lr))) →
        checkAfterPage2 E lookup fg ≠ none) := by
  refine ⟨by decide, ?_⟩
  intro h
  exact h (sampleEnv false false) (.error "timeout") sampleGUI (Or.inl ⟨"timeout", rfl⟩) (by decide)

/-- Page 2 built on a failed or empty listing leaves `fg.baseImg` as it was. -/
theorem page2_baseImg_of_empty_listing (E : Env) (lookup : ListResult) (fg : FyneGUI)
    (hlist : (∃ err, lookup = .error err) ∨ (∃ lr, lookup = .ok ([], lr)))
    (hnone : E.releaseStrings [] = []) :
    (Page2 E lookup fg).fg.baseImg = fg.baseImg := by
  rcases hlist with ⟨err, rfl⟩ | ⟨lr, rfl⟩
  · simp [Page2, listBaseImgs, (checkSetChecked_self fg).1]
  · have h := (checkSetChecked_self { fg with releases := [] }).1
    simp only [] at h
    simp [Page2, listBaseImgs, hnone, h]

/-- C5, amended: if the release listing performed while page 2 is built fails
or returns zero releases (from which `releaseStrings` makes no option), and
`fg.baseImg` is blank at that time, then `Check` returns a non-nil error. -/
theorem check_rejects_after_empty_listing (E : Env) (lookup : ListResult) (fg : FyneGUI)
    (hlist : (∃ err, lookup = .error err) ∨ (∃ lr, lookup = .ok ([], lr)))
    (hnone : E.releaseStrings [] = [])
    (hblank : TrimSpace fg.baseImg = "") :
    checkAfterPage2 E lookup fg ≠ none := by
  unfold checkAfterPage2
  intro h
  rw [check_result_eq_none_iff] at h
  rw [page2_baseImg_of_empty_listing E lookup fg hlist hnone] at h
  exact h.2.1 hblank

/-- Witness of C5 amended: the listing times out and no base image is set. -/
theorem check_rejects_after_empty_listing_witness :
    checkAfterPage2 (sampleEnv false false) (.error "timeout") { sampleGUI with baseImg := " " }
      ≠ none :=
  check_rejects_after_empty_listing (sampleEnv false false) (.error "timeout")
    { sampleGUI with baseImg := " " } (Or.inl ⟨"timeout", rfl⟩) rfl (by decide)

/-- C6: for a visor count `N ≥ 0`, generation succeeds; with the hypervisor
flag set the sequence has `N + 1` entries and the hypervisor entry is last,
without the flag it has `N` entries. -/
theorem generate_length (G : BootGen) (c : BuildConfig) (h : 0 ≤ c.visors) :
    ∃ bps, Generate G c = .ok bps ∧
      (c.hv = true → (bps.length : Int) = c.visors + 1 ∧
        bps.getLast? = some (bootEntry G c none)) ∧
      (c.hv = false → (bps.length : Int) = c.visors) := by
  have hnot : ¬ c.visors < 0 := by omega
  have hnat : ((c.visors.toNat : Nat) : Int) = c.visors := Int.toNat_of_nonneg h
  refine ⟨_, by simp only [Generate, hnot, if_false]; rfl, ?_, ?_⟩
  · intro hv
    simp [hv, hnat]
  · intro hv
    simp [hv, hnat]

/-- Witness of C6: three visors and the hypervisor give four entries. -/
theorem generate_length_witness :
    ∃ bps, Generate sampleGen { sampleGUI.config with visors := 3 } = .ok bps ∧
      (({ sampleGUI.config with visors := 3 } : BuildConfig).hv = true →
        (bps.length : Int) = ({ sampleGUI.config with visors := 3 } : BuildConfig).visors + 1 ∧
        bps.getLast? = some (bootEntry sampleGen { sampleGUI.config with visors := 3 } none)) ∧
      (({ sampleGUI.config with visors := 3 } : BuildConfig).hv = false →
        (bps.length : Int) = ({ sampleGUI.config with visors := 3 } : BuildConfig).visors) :=
  generate_length sampleGen { sampleGUI.config with visors := 3 } (by decide)

/-- C9: the value `Check` returns does not depend on whether `os.Stat` finds
the work directory, on the answer to the confirm dialog, or on whether
`os.RemoveAll` fails: two runs on states that agree on the work directory (and
its resolution), the base image, the gateway IP, the visor text and the visor
count return the same value; in particular a run returns nil when the
directory exists, the user declines and no condition of `Check` fails. -/
theorem check_result_independent_of_directory (E E' : Env) (lookup lookup' : ListResult)
    (fg fg' : FyneGUI) (visorsText visorsText' : String) (b b' : Bool)
    (habs : E.filepathAbs = E'.filepathAbs) (hwk : fg.wkDir = fg'.wkDir)
    (himg : fg.baseImg = fg'.baseImg) (hgw : fg.gwIP = fg'.gwIP)
    (htext : visorsText = visorsText') (hvis : fg.visors = fg'.visors) :
    (runCheck E lookup fg visorsText b).result = (runCheck E' lookup' fg' visorsText' b').result ∧
      (firstFailure E fg visorsText = none →
        (runCheck E lookup fg visorsText false).result = none) := by
  constructor
  · rw [runCheck_result, runCheck_result, check_result_eq_firstFailure, check_result_eq_firstFailure]
    simp [firstFailure, checkConditions, habs, hwk, himg, hgw, htext, hvis]
  · intro h
    rw [runCheck_result, check_result_eq_firstFailure, h]

/-- Witness of C9: the directory exists and the user declines, against the
directory missing and the user accepting; both runs return nil. -/
theorem check_result_independent_of_directory_witness :
    ((runCheck (sampleEnv true true) (.error "timeout") sampleGUI "1" false).result =
        (runCheck (sampleEnv false false) (.ok ([sampleRelease], sampleRelease)) sampleGUI "1"
          true).result ∧
      (firstFailure (sampleEnv true true) sampleGUI "1" = none →
        (runCheck (sampleEnv true true) (.error "timeout") sampleGUI "1" false).result = none)) ∧
    (sampleEnv true true).osStat "/tmp/skyimager" = none ∧
    (runCheck (sampleEnv true true) (.error "timeout") sampleGUI "1" false).result = none :=
  ⟨check_result_independent_of_directory (sampleEnv true true) (sampleEnv false false)
      (.error "timeout") (.ok ([sampleRelease], sampleRelease)) sampleGUI sampleGUI "1" "1"
      false true rfl rfl rfl rfl rfl rfl, rfl, by decide⟩

/-- C10, as stated, fails: the text `9223372036854775808` does not parse as an
integer (range error), yet after the callback of the visors entry `fg.visors`
is the largest `int`, not `0`. -/
theorem visors_not_zero_after_out_of_range_text :
    (Atoi "9223372036854775808").2 = some .errRange ∧
    (typeVisors sampleGUI sampleForm "9223372036854775808").1.visors = 9223372036854775807 ∧
    ¬ (∀ (fg : FyneGUI) (form : Page2Form) (s : String),
        (Atoi s).2 ≠ none → (typeVisors fg form s).1.visors = 0) := by
  refine ⟨by decide, by decide, ?_⟩
  intro h
  have h0 := h sampleGUI sampleForm "9223372036854775808" (by decide)
  revert h0
  decide

/-- C10, amended: after the callback of the visors entry runs on `s`, the entry
text is `s` and `fg.visors` is the value `Atoi` gives: the parsed value, `0` on
a syntax error, the nearest bound of `int` on a range error. The two visor
tests of `Check` pass if and only if `s` parses as an integer `n` with `n ≥ 0`,
in which case `fg.visors = n`; with the other conditions of `Check` holding,
this is when `Check` returns nil. -/
theorem visor_checks_after_callback (E : Env) (fg : FyneGUI) (form : Page2Form) (s : String) :
    (typeVisors fg form s).2.visors = s ∧
      ((typeVisors fg form s).1.visors = (Atoi s).1 ∧
        ((Atoi s).2 = some .errSyntax → (typeVisors fg form s).1.visors = 0) ∧
        ((Atoi s).2 = some .errRange →
          (typeVisors fg form s).1.visors = maxInt ∨ (typeVisors fg form s).1.visors = minInt)) ∧
      (visorChecks (typeVisors fg form s).1 (typeVisors fg form s).2.visors = none ↔
        ∃ n : Int, Atoi s = (n, none) ∧ 0 ≤ n) ∧
      (∀ n : Int, Atoi s = (n, none) → (typeVisors fg form s).1.visors = n) ∧
      ((∃ wkDir, E.filepathAbs fg.wkDir = .ok wkDir) → TrimSpace fg.baseImg ≠ "" →
        fg.gwIP ≠ none →
        ((Page2.Check E (typeVisors fg form s).1 (typeVisors fg form s).2.visors).result = none ↔
          ∃ n : Int, Atoi s = (n, none) ∧ 0 ≤ n)) := by
  have key : ((Atoi s).2 = none ∧ 0 ≤ (Atoi s).1) ↔ ∃ n : Int, Atoi s = (n, none) ∧ 0 ≤ n := by
    constructor
    · intro h
      exact ⟨(Atoi s).1, Prod.ext rfl h.1, h.2⟩
    · rintro ⟨n, hn, h0⟩
      rw [hn]
      exact ⟨rfl, h0⟩
  refine ⟨rfl, ⟨rfl, (Atoi_error_value s).1, (Atoi_error_value s).2⟩, ?_, ?_, ?_⟩
  · rw [← key]
    simp only [typeVisors, visorsOnChanged, visorChecks]
    cases h : (Atoi s).2 with
    | some e => simp
    | none =>
      by_cases h0 : (Atoi s).1 < 0
      · simp [h0]
      · simp [h0]
        omega
  · intro n hn
    simp [typeVisors, visorsOnChanged, hn]
  · intro habs himg hgw
    rw [check_result_eq_none_iff, ← key]
    simp only [typeVisors, visorsOnChanged]
    constructor
    · exact fun h => ⟨h.2.2.2.1, h.2.2.2.2⟩
    · exact fun h => ⟨habs, himg, hgw, h.1, h.2⟩

end Imager
